/-
  Verification of the gavin-the-fish background-job execution core.

  Shallow embedding of the job lifecycle engine:
    - src/gavin_the_fish/job_registry.py  (JobStatus, Job, JobRegistry)
    - src/gavin_the_fish/job_utils.py     (job_context)
    - src/gavin_the_fish/tools/core.py    (ToolRegistry, execute_tool paths,
                                           _run_job_in_background, _standardize_result)

  Modelling conventions:
    - Python dicts become association data: the job store is a function
      String -> Option Job (a mathematical finite map); record-valued dicts
      (inputs, results, envelopes) are ordered association lists, mirroring
      insertion order of the Python code.
    - Python values (Any) are modelled by the inductive `Value`.
    - datetime.now() timestamps are abstracted to Nat instants supplied
      explicitly at each mutating call; isoformat is their decimal rendering.
    - random id generation is modelled by passing the generated id as an
      argument to create_job (the source draws 5 random characters and uses
      the draw without consulting the store).
    - async control flow is split at its await points: each engine path is
      embedded as the pure store transformations before and after the await,
      so that interleaved operations (e.g. cancellation) act on the store
      between the two halves.
    - the on_status_change callback and rumps notification delivery are
      external collaborator hooks (OS notification center); they do not
      touch the store fields and are omitted from the data record.
-/
import Mathlib

set_option maxHeartbeats 1000000

/-- Python values as stored in job inputs, results and envelopes. -/
inductive Value where
  | vstr : String → Value
  | vint : Int → Value
  | vbool : Bool → Value
  | vnone : Value
  | vdict : List (String × Value) → Value

/-- An ordered mapping, mirroring a Python dict of strings to values. -/
abbrev Dict := List (String × Value)

/-- Python dict lookup `d.get(k)` on an association list (first match wins). -/
def dictGet (d : Dict) (k : String) : Option Value :=
  match d with
  | [] => none
  | (k', v) :: rest => if k' = k then some v else dictGet rest k

/-- Python str() of a value, as interpolated into f-strings and templates.
    The rendering of nested dicts is not relied upon by any theorem. -/
def Value.pyStr : Value → String
  | .vstr s => s
  | .vint n => toString n
  | .vbool b => if b then "True" else "False"
  | .vnone => "None"
  | .vdict _ => "\x7bdict\x7d"

/-- `class JobStatus(str, Enum)` from job_registry.py. -/
inductive JobStatus where
  | pending
  | running
  | success
  | failed
  | cancelled
  | expired
  deriving DecidableEq

/-- The `.value` string of each JobStatus enum member. -/
def JobStatus.value : JobStatus → String
  | .pending => "pending"
  | .running => "running"
  | .success => "success"
  | .failed => "failed"
  | .cancelled => "cancelled"
  | .expired => "expired"

/-- Terminal statuses per the state machine: SUCCESS, FAILED, CANCELLED, EXPIRED. -/
def JobStatus.isTerminal : JobStatus → Bool
  | .success => true
  | .failed => true
  | .cancelled => true
  | .expired => true
  | _ => false

/-- A message template, parsed into literal runs and \x7bkey\x7d placeholders.
    Literal segments carry no brace characters (braces in the source text are
    exactly the placeholder delimiters recognised by the code's regex). -/
inductive TSeg where
  | lit : String → TSeg
  | hole : String → TSeg

abbrev Template := List TSeg

/-- The raw text of a template, placeholders rendered back as \x7bkey\x7d. -/
def rawText : Template → String
  | [] => ""
  | .lit s :: rest => s ++ rawText rest
  | .hole k :: rest => "\x7b" ++ k ++ "\x7d" ++ rawText rest

/-- Does the template contain any placeholder?  (The source tests
    `'\x7b' not in template_str or '\x7d' not in template_str`.) -/
def hasHole : Template → Bool
  | [] => false
  | .lit _ :: rest => hasHole rest
  | .hole _ :: _ => true

/-- Errors raised by Python's str.format over a template: a missing key
    (KeyError k) or any other formatting error (an empty field name is a
    positional reference, raising IndexError here). -/
inductive FmtErr where
  | keyErr : String → FmtErr
  | otherErr : FmtErr

/-- Python's `template_str.format(**context)`: substitute every placeholder,
    failing with KeyError on the first missing key (fields evaluated left to
    right), and with a non-KeyError on an empty (positional) field. -/
def pyFormat (ctx : String → Option Value) : Template → Except FmtErr String
  | [] => .ok ""
  | .lit s :: rest => (pyFormat ctx rest).map (fun t => s ++ t)
  | .hole k :: rest =>
      if k = "" then .error .otherErr
      else
        match ctx k with
        | none => .error (.keyErr k)
        | some v => (pyFormat ctx rest).map (fun t => v.pyStr ++ t)

/-- The source's regex fallback `re.sub(r'\x5c\x7b([^\x7b\x7d]+)\x5c\x7d', replace_if_exists, ...)`:
    each placeholder whose key is in the context is replaced by str(value);
    every other placeholder is left literally in the output. -/
def regexFallback (ctx : String → Option Value) : Template → String
  | [] => ""
  | .lit s :: rest => s ++ regexFallback ctx rest
  | .hole k :: rest =>
      (match ctx k with
       | some v => v.pyStr
       | none => "\x7b" ++ k ++ "\x7d") ++ regexFallback ctx rest

/-- `Job` record from job_registry.py.  Callback and notification-delivery
    hooks are external collaborators and carry no store-visible data beyond
    the fields kept here. -/
structure Job where
  job_id : String
  tool_name : String
  input : Dict
  status : JobStatus
  result : Option Dict
  error : Option String
  created_at : Nat
  updated_at : Nat
  owner : Option String
  conversation_id : Option String
  cancelable : Bool
  context : Option Dict
  notify_on_completion : Bool
  notification_title : Option String
  notification_message : Option Template

/-- `Job.update`: set status/result/error and refresh updated_at.
    (The on_status_change callback and completion notification fire after
    these writes and do not modify the record.) -/
def Job.update (j : Job) (now : Nat) (status : JobStatus)
    (result : Option Dict) (error : Option String) : Job :=
  { j with status := status, result := result, error := error, updated_at := now }

/-- The merged interpolation context of `_format_with_context`:
    `context.update(self.input); context.update(self.result)` — result
    entries shadow input entries. -/
def Job.ctxGet (j : Job) (k : String) : Option Value :=
  match j.result with
  | some r =>
      match dictGet r k with
      | some v => some v
      | none => dictGet j.input k
  | none => dictGet j.input k

/-- `Job._format_with_context`: return templates without placeholders
    unchanged; otherwise try str.format over the merged context, fall back
    to per-key regex substitution on KeyError, and return the raw template
    on any other formatting error. -/
def Job.format_with_context (j : Job) (t : Template) : String :=
  if hasHole t = false then rawText t
  else
    match pyFormat j.ctxGet t with
    | .ok s => s
    | .error (.keyErr _) => regexFallback j.ctxGet t
    | .error .otherErr => rawText t

/-- Python exceptions surfaced by `get_status_message`'s direct subscripts. -/
inductive PyErr where
  | keyError : String → PyErr
  | typeError : PyErr
  deriving DecidableEq

/-- `Job.get_status_message`.  The SUCCESS branches for the "fibonacci" and
    "goose" tools subscript `self.result` directly (`self.result['result']`,
    `self.result['target']`): a None result raises TypeError and a missing
    key raises KeyError, modelled by the `Except` error constructors. -/
def Job.get_status_message (j : Job) : Except PyErr String :=
  let t := j.tool_name
  match j.status with
  | .pending => .ok s!"Waiting to start {t} job"
  | .running => .ok s!"Currently running {t} job"
  | .success =>
      if j.tool_name = "fibonacci" then
        match j.result with
        | none => .error .typeError
        | some r =>
            match dictGet r "result" with
            | none => .error (.keyError "result")
            | some v =>
                let s := v.pyStr
                .ok s!"Fibonacci calculation completed. The result is {s}"
      else if j.tool_name = "goose" then
        match j.result with
        | none => .error .typeError
        | some r =>
            match dictGet r "target" with
            | none => .error (.keyError "target")
            | some v =>
                let s := v.pyStr
                .ok s!"Goose command completed successfully for target {s}"
      else .ok s!"{t} job completed successfully"
  | .failed =>
      let e := match j.error with
               | some s => s
               | none => "None"
      .ok s!"Job failed: {e}"
  | .cancelled => .ok "Job was cancelled"
  | .expired => .ok s!"Unknown status for {t} job"

/-- The JobRegistry's `_jobs` dict, keyed by job id. -/
abbrev JobStore := String → Option Job

namespace JobRegistry

/-- `JobRegistry.get_job`. -/
def get_job (s : JobStore) (job_id : String) : Option Job :=
  s job_id

/-- `JobRegistry.create_job`: build a fresh PENDING record under the id the
    generator produced and insert it (`self._jobs[job_id] = job` — a plain
    dict write, with no collision check against existing keys). -/
def create_job (s : JobStore) (genId : String) (now : Nat)
    (tool_name : String) (input : Dict)
    (owner : Option String) (conversation_id : Option String)
    (cancelable : Bool) (context : Option Dict)
    (notify_on_completion : Bool) (notification_title : Option String)
    (notification_message : Option Template) : Job × JobStore :=
  let job : Job :=
    { job_id := genId
      tool_name := tool_name
      input := input
      status := .pending
      result := none
      error := none
      created_at := now
      updated_at := now
      owner := owner
      conversation_id := conversation_id
      cancelable := cancelable
      context := context
      notify_on_completion := notify_on_completion
      notification_title := notification_title
      notification_message := notification_message }
  (job, fun k => if k = genId then some job else s k)

/-- `JobRegistry.update_job`: look the job up and, when present, apply
    `Job.update` in place; silently a no-op when the id is absent. -/
def update_job (s : JobStore) (now : Nat) (job_id : String)
    (status : JobStatus) (result : Option Dict) (error : Option String) : JobStore :=
  match s job_id with
  | none => s
  | some j => fun k => if k = job_id then some (j.update now status result error) else s k

/-- `JobRegistry.cancel_job`: succeed exactly when the job exists, is
    cancelable, and is PENDING or RUNNING; then update to CANCELLED. -/
def cancel_job (s : JobStore) (now : Nat) (job_id : String) : Bool × JobStore :=
  match s job_id with
  | none => (false, s)
  | some j =>
      if j.cancelable = true ∧ (j.status = .pending ∨ j.status = .running) then
        (true, update_job s now job_id .cancelled none none)
      else (false, s)

end JobRegistry

/-- `Parameter` schema entry from tools/core.py. -/
structure Parameter where
  name : String
  type : String
  description : String
  required : Bool
  enum : Option (List String)

/-- `ToolSchema` from tools/core.py. -/
structure ToolSchema where
  name : String
  description : String
  parameters : List Parameter

/-- `JobSettings` from tools/core.py. -/
structure JobSettings where
  sync_threshold : Option Int
  job_timeout : Option Int
  notify_title : Option String
  notify_message : Option Template
  cancelable : Bool

/-- The three per-name dicts held by `ToolRegistry` (`_tools`,
    `_implementations`, `_job_settings`); the FastAPI routers are an external
    collaborator.  Implementations are opaque callables of type `α`. -/
structure ToolRegistryState (α : Type) where
  tools : String → Option ToolSchema
  implementations : String → Option α
  job_settings : String → Option JobSettings

/-- The empty registry (`ToolRegistry.__init__`). -/
def ToolRegistryState.empty (α : Type) : ToolRegistryState α :=
  { tools := fun _ => none
    implementations := fun _ => none
    job_settings := fun _ => none }

namespace ToolRegistry

/-- `ToolRegistry.register`: overwrite the schema and implementation entries
    for `schema.name`; write the settings entry only when settings were
    passed (`if settings: self._job_settings[schema.name] = settings`). -/
def register {α : Type} (r : ToolRegistryState α) (schema : ToolSchema)
    (implementation : α) (settings : Option JobSettings) : ToolRegistryState α :=
  { tools := fun k => if k = schema.name then some schema else r.tools k
    implementations := fun k => if k = schema.name then some implementation else r.implementations k
    job_settings :=
      match settings with
      | some st => fun k => if k = schema.name then some st else r.job_settings k
      | none => r.job_settings }

/-- `ToolRegistry.get_schema`. -/
def get_schema {α : Type} (r : ToolRegistryState α) (name : String) : Option ToolSchema :=
  r.tools name

/-- `ToolRegistry.get_implementation`. -/
def get_implementation {α : Type} (r : ToolRegistryState α) (name : String) : Option α :=
  r.implementations name

/-- `ToolRegistry.get_job_settings`. -/
def get_job_settings {α : Type} (r : ToolRegistryState α) (name : String) : Option JobSettings :=
  r.job_settings name

end ToolRegistry

/-- `datetime.isoformat()` on the abstracted Nat instants. -/
def isoformat (n : Nat) : String := toString n

/-- Python truthiness filter for the optional string fields of
    `_standardize_result` (`if job_id: ...` — None and "" are both skipped). -/
def optStrField (k : String) (o : Option String) : Dict :=
  match o with
  | some s => if s = "" then [] else [(k, Value.vstr s)]
  | none => []

/-- `ToolRegistry._standardize_result`: build the standardized envelope
    dict; non-dict callable results are wrapped as \x7b"value": result\x7d, and the
    optional fields are appended only when truthy, in source order. -/
def standardize_result (tool_name : String) (status : String) (result : Value)
    (parameters : Dict) (is_job : Bool) (job_id : Option String)
    (error : Option String) (started_at : Option String)
    (completed_at : Option String) (status_message : Option String) : Dict :=
  let resultDict : Dict :=
    match result with
    | .vdict d => d
    | v => [("value", v)]
  [("tool_name", Value.vstr tool_name),
   ("status", Value.vstr status),
   ("result", Value.vdict resultDict),
   ("parameters", Value.vdict parameters),
   ("is_job", Value.vbool is_job)]
  ++ optStrField "job_id" job_id
  ++ optStrField "error" error
  ++ optStrField "started_at" started_at
  ++ optStrField "completed_at" completed_at
  ++ optStrField "status_message" status_message

/-- Python str() of the exceptions get_status_message raises, as rendered
    into a FAILED job's error field and an HTTP 400 detail when they
    propagate: str of a KeyError is the quoted key, and the TypeError text
    is CPython's None-subscript message. -/
def PyErr.pyStr : PyErr → String
  | .keyError k => "\x27" ++ k ++ "\x27"
  | .typeError => "\x27NoneType\x27 object is not subscriptable"

/-- The outcome of awaiting the opaque tool callable: a returned value or a
    raised exception rendered by str(e). -/
abbrev CallOutcome := Except String Value

namespace ToolRegistry

/-- `_run_job_in_background`, first half (before `await implementation`):
    fetch the job and promote PENDING to RUNNING, leaving any other status
    in place.  (The source dereferences the fetched job unguarded; an absent
    id cannot arise for engine-created jobs and leaves the store unchanged
    here.) -/
def run_job_in_background_start (s : JobStore) (now : Nat) (job_id : String) : JobStore :=
  match JobRegistry.get_job s job_id with
  | none => s
  | some j =>
      if j.status = .pending then JobRegistry.update_job s now job_id .running none none
      else s

/-- `_run_job_in_background`, second half (after the await): on a returned
    value, refetch the job and — only when its status is not CANCELLED —
    build the standardized envelope and store SUCCESS with it as result.
    The envelope's status_message argument evaluates
    `job.get_status_message()` (hasattr is true on every Job): if that call
    raises, the exception reaches the enclosing except clause, which
    refetches the job — the store unchanged in between — and, the status
    still not CANCELLED, marks the job FAILED with str(e) instead.  On a
    callable raise, mark FAILED with str(e) — again only when not
    CANCELLED. -/
def run_job_in_background_finish (s : JobStore) (now : Nat) (job_id : String)
    (kwargs : Dict) (outcome : CallOutcome) : JobStore :=
  match outcome with
  | .ok r =>
      match JobRegistry.get_job s job_id with
      | none => s
      | some j =>
          if j.status = .cancelled then s
          else
            match j.get_status_message with
            | .ok msg =>
                let std := standardize_result j.tool_name JobStatus.success.value r kwargs true
                  (some job_id) none (some (isoformat j.created_at))
                  (some (isoformat j.updated_at)) (some msg)
                JobRegistry.update_job s now job_id .success (some std) none
            | .error ex =>
                JobRegistry.update_job s now job_id .failed none (some ex.pyStr)
  | .error e =>
      match JobRegistry.get_job s job_id with
      | none => s
      | some j =>
          if j.status = .cancelled then s
          else JobRegistry.update_job s now job_id .failed none (some e)

end ToolRegistry

/-- The response strategy `execute_tool` selects from the tool's settings:
    `-1` blocks, `0` (and other falsey thresholds) schedules and returns
    PENDING, a positive (or other non-zero, non-minus-one) threshold enters
    the bounded polling wait, and absent settings or an absent threshold run
    the callable synchronously as a non-job tool. -/
inductive ExecPath where
  | block
  | schedulePending
  | boundedWait : Int → ExecPath
  | plainSync
  deriving DecidableEq

/-- The branch structure of `execute_tool`:
    `if settings and settings.sync_threshold is not None` /
    `if settings.sync_threshold == -1` / `elif not settings.sync_threshold` /
    `else`.  A pydantic settings object is always truthy. -/
def dispatch (settings : Option JobSettings) : ExecPath :=
  match settings with
  | none => .plainSync
  | some st =>
      match st.sync_threshold with
      | none => .plainSync
      | some t =>
          if t = -1 then .block
          else if t = 0 then .schedulePending
          else .boundedWait t

namespace ToolRegistry

/-- The unconditional-block path (`sync_threshold == -1`), first half:
    `job_context` sets the job RUNNING on entry, then the callable is
    awaited. -/
def execute_block_start (s : JobStore) (now : Nat) (job_id : String) : JobStore :=
  JobRegistry.update_job s now job_id .running none none

/-- The unconditional-block path, second half (after the await).  On a
    returned value the envelope is built and the job set SUCCESS with it —
    with no check of the job's current status.  On a raised exception
    `job_context` marks the job FAILED with "Job failed: " prefixed to
    str(e) and re-raises; the re-raised exception escapes `execute_tool`'s
    try as an HTTP 400 (the `.error` branch of the returned response). -/
def execute_block_finish (s : JobStore) (now : Nat) (job_id : String)
    (tool_name : String) (body : Dict) (outcome : CallOutcome) :
    Except String Dict × JobStore :=
  match outcome with
  | .ok r =>
      let std := standardize_result tool_name JobStatus.success.value r body true
        (some job_id) none none none none
      (.ok std, JobRegistry.update_job s now job_id .success (some std) none)
  | .error e =>
      (.error e, JobRegistry.update_job s now job_id .failed none (some ("Job failed: " ++ e)))

/-- The never-block path (`sync_threshold` falsey): schedule
    `_run_job_in_background` as a background task and immediately return the
    standardized PENDING envelope carrying the job id. -/
def execute_pending_response (tool_name : String) (job_id : String) (body : Dict) : Dict :=
  standardize_result tool_name JobStatus.pending.value (.vdict []) body true
    (some job_id) none none none none

/-- The non-job path (no settings, or `sync_threshold is None`): await the
    callable inline and return a plain success envelope; a raised exception
    escapes as an HTTP 400. -/
def execute_plain_sync (tool_name : String) (body : Dict) (outcome : CallOutcome) :
    Except String Dict :=
  match outcome with
  | .ok r => .ok (standardize_result tool_name "success" r body false none none none none none)
  | .error e => .error e

/-- The statuses the bounded-wait loop treats as completion
    (`[JobStatus.SUCCESS, JobStatus.FAILED, JobStatus.CANCELLED]` —
    EXPIRED is not in the list). -/
def isFinishedStatus (st : JobStatus) : Bool :=
  st = .success ∨ st = .failed ∨ st = .cancelled

/-- The envelope the bounded-wait loop returns when it observes a finished
    job `cur` whose `get_status_message()` call returned `msg` (the raising
    case never reaches the envelope — see `poll_wait`). -/
def boundedTerminalEnvelope (tool_name : String) (job_id : String) (body : Dict)
    (cur : Job) (msg : String) : Dict :=
  standardize_result tool_name cur.status.value
    (.vdict (match cur.result with | some d => d | none => []))
    body true (some job_id) cur.error (some (isoformat cur.created_at))
    (some (isoformat cur.updated_at)) (some msg)

/-- The envelope the bounded-wait loop returns when the threshold elapses
    (`started_at` comes from the Job object fetched at creation). -/
def boundedPendingEnvelope (tool_name : String) (job_id : String) (body : Dict)
    (created0 : Nat) : Dict :=
  standardize_result tool_name JobStatus.pending.value (.vdict []) body true
    (some job_id) none (some (isoformat created0)) none none

/-- The result of the bounded-wait polling loop: either a standardized
    envelope is returned to the caller (the loop writes nothing in this
    case), or an exception escaped the branch — its except clause then marks
    the job FAILED in the store observed at that poll and re-raises, the
    call surfacing as an HTTP 400 whose detail is str(e). -/
inductive PollResult where
  | envelope : Dict → PollResult
  | httpError : String → JobStore → PollResult

/-- The bounded-wait polling loop of the positive-threshold path.  The store
    evolves under the concurrently running background task; `trace n` is the
    store observed at the n-th poll, the polls being 0.1s apart, so the
    elapsed-time guard `elapsed >= sync_threshold` (seconds) is
    `10 * threshold <= n` at poll n.  Each iteration first handles a
    finished job: the terminal envelope's status_message argument evaluates
    `current_job.get_status_message()`, and a raise there is caught by the
    branch's except clause, which marks the job FAILED with str(e) and
    re-raises (HTTP 400); otherwise the terminal envelope is returned.  If
    the job is unfinished, the PENDING envelope is returned once the
    threshold has elapsed, else the loop sleeps and re-polls.  An absent job
    id raises AttributeError (`current_job.status` on None), taking the same
    except path, whose store write is a no-op on the absent id.  `now`
    abstracts the wall-clock instant of the exception path's FAILED write. -/
def poll_wait (trace : Nat → JobStore) (job_id tool_name : String) (body : Dict)
    (created0 : Nat) (now : Nat) (threshold : Nat) (n : Nat) : PollResult :=
  match JobRegistry.get_job (trace n) job_id with
  | none =>
      .httpError "\x27NoneType\x27 object has no attribute \x27status\x27"
        (JobRegistry.update_job (trace n) now job_id .failed none
          (some "\x27NoneType\x27 object has no attribute \x27status\x27"))
  | some cur =>
      if isFinishedStatus cur.status then
        match cur.get_status_message with
        | .ok msg => .envelope (boundedTerminalEnvelope tool_name job_id body cur msg)
        | .error ex =>
            .httpError ex.pyStr
              (JobRegistry.update_job (trace n) now job_id .failed none (some ex.pyStr))
      else if 10 * threshold ≤ n then
        .envelope (boundedPendingEnvelope tool_name job_id body created0)
      else poll_wait trace job_id tool_name body created0 now threshold (n + 1)
termination_by 10 * threshold - n
decreasing_by
  omega

end ToolRegistry

/- ===== Concrete fixtures ===== -/

/-- A job record shaped as create_job builds it, for concrete fixtures. -/
def mkJob (id tool : String) (st : JobStatus) (cb : Bool) : Job :=
  { job_id := id
    tool_name := tool
    input := []
    status := st
    result := none
    error := none
    created_at := 0
    updated_at := 0
    owner := none
    conversation_id := none
    cancelable := cb
    context := none
    notify_on_completion := false
    notification_title := none
    notification_message := none }

/-- A one-job store, keyed the way the registry's dict keys its jobs. -/
def singletonStore (j : Job) : JobStore :=
  fun k => if k = j.job_id then some j else none

/- ===== C1: terminal-status monotonicity of update_job ===== -/

def jobDoneC1 : Job := mkJob "abcde" "timer" .success true

def storeC1 : JobStore := singletonStore jobDoneC1

/-- C1 counterexample: a job whose status is the terminal SUCCESS is moved
    back to the non-terminal PENDING by a single call to the store's update
    operation, so update is not monotonic over terminal states. -/
theorem c1_counterexample :
    (JobRegistry.get_job storeC1 "abcde").map Job.status = some JobStatus.success ∧
    (JobRegistry.get_job (JobRegistry.update_job storeC1 1 "abcde" .pending none none)
        "abcde").map Job.status = some JobStatus.pending :=
  ⟨rfl, rfl⟩

/-- C1 (amended): the store's update operation applies whatever status is
    requested, unconditionally — in particular a job already in a terminal
    status is overwritten with the requested status; no terminal-state guard
    exists in the store. -/
theorem c1_update_overwrites_terminal (s : JobStore) (now : Nat) (id : String)
    (st : JobStatus) (res : Option Dict) (err : Option String) (j : Job)
    (hj : s id = some j) (_hterm : j.status.isTerminal = true) :
    (JobRegistry.get_job (JobRegistry.update_job s now id st res err) id).map Job.status =
      some st := by
  unfold JobRegistry.update_job JobRegistry.get_job
  rw [hj]
  simp [Job.update]

/-- C1 witness: the amended theorem applied to a concrete SUCCESS job being
    overwritten with RUNNING. -/
theorem c1_witness :
    (JobRegistry.get_job (JobRegistry.update_job storeC1 2 "abcde" .running none none)
        "abcde").map Job.status = some JobStatus.running :=
  c1_update_overwrites_terminal storeC1 2 "abcde" .running none none jobDoneC1 rfl rfl

/- ===== C10: frame property of update_job ===== -/

/-- C10: on a present id, update_job rewrites exactly the status, result,
    error and updated_at fields of that job to the values passed (result and
    error to none when omitted at the call site, their Python defaults),
    keeping every other field of the record and every other id's entry; on
    an absent id the whole store is returned unchanged. -/
theorem c10_update_frame (s : JobStore) (now : Nat) (id : String)
    (st : JobStatus) (res : Option Dict) (err : Option String) :
    (s id = none → JobRegistry.update_job s now id st res err = s) ∧
    (∀ j, s id = some j →
      JobRegistry.get_job (JobRegistry.update_job s now id st res err) id =
        some { j with status := st, result := res, error := err, updated_at := now } ∧
      ∀ k, k ≠ id → JobRegistry.get_job (JobRegistry.update_job s now id st res err) k = s k) := by
  constructor
  · intro h
    unfold JobRegistry.update_job
    rw [h]
  · intro j hj
    unfold JobRegistry.update_job JobRegistry.get_job
    rw [hj]
    constructor
    · simp [Job.update]
    · intro k hk
      simp [hk]

def jobC10 : Job := mkJob "zzzzz" "goose" .running false

def storeC10 : JobStore := singletonStore jobC10

/-- C10 witness: the frame theorem applied to a concrete store, observing
    both the rewritten entry and an untouched foreign key. -/
theorem c10_witness :
    JobRegistry.get_job (JobRegistry.update_job storeC10 7 "zzzzz" .failed none (some "boom"))
        "zzzzz" =
      some { jobC10 with status := .failed, result := none, error := some "boom", updated_at := 7 } ∧
    JobRegistry.get_job (JobRegistry.update_job storeC10 7 "zzzzz" .failed none (some "boom"))
        "aaaaa" = none :=
  ⟨((c10_update_frame storeC10 7 "zzzzz" .failed none (some "boom")).2 jobC10 rfl).1,
   (((c10_update_frame storeC10 7 "zzzzz" .failed none (some "boom")).2 jobC10 rfl).2
      "aaaaa" (by decide)).trans rfl⟩

/- ===== C8: cancel_job success condition and frame ===== -/

/-- C8: cancel_job succeeds exactly when the job exists, is cancelable and
    is PENDING or RUNNING; on success the job's status becomes CANCELLED
    (via the store's update), and on failure the store is returned
    completely unchanged. -/
theorem c8_cancel_spec (s : JobStore) (now : Nat) (id : String) :
    ((JobRegistry.cancel_job s now id).1 = true ↔
      ∃ j, s id = some j ∧ j.cancelable = true ∧ (j.status = .pending ∨ j.status = .running)) ∧
    ((JobRegistry.cancel_job s now id).1 = true →
      (JobRegistry.get_job (JobRegistry.cancel_job s now id).2 id).map Job.status =
        some JobStatus.cancelled) ∧
    ((JobRegistry.cancel_job s now id).1 = false → (JobRegistry.cancel_job s now id).2 = s) := by
  cases hs : s id with
  | none =>
      have hcj : JobRegistry.cancel_job s now id = (false, s) := by
        unfold JobRegistry.cancel_job
        rw [hs]
      rw [hcj]
      refine ⟨?_, ?_, ?_⟩
      · simp [hs]
      · intro h
        simp at h
      · intro _
        rfl
  | some j =>
      by_cases hc : j.cancelable = true ∧ (j.status = .pending ∨ j.status = .running)
      · have hcj : JobRegistry.cancel_job s now id =
            (true, JobRegistry.update_job s now id JobStatus.cancelled none none) := by
          unfold JobRegistry.cancel_job
          rw [hs]
          exact if_pos hc
        rw [hcj]
        refine ⟨?_, ?_, ?_⟩
        · constructor
          · intro _
            exact ⟨j, rfl, hc.1, hc.2⟩
          · intro _
            rfl
        · intro _
          unfold JobRegistry.update_job JobRegistry.get_job
          rw [hs]
          simp [Job.update]
        · intro h
          simp at h
      · have hcj : JobRegistry.cancel_job s now id = (false, s) := by
          unfold JobRegistry.cancel_job
          rw [hs]
          exact if_neg hc
        rw [hcj]
        refine ⟨?_, ?_, ?_⟩
        · constructor
          · intro h
            exact absurd h (by simp)
          · intro hex
            obtain ⟨j', hj', hcb', hst'⟩ := hex
            cases hj'
            exact absurd ⟨hcb', hst'⟩ hc
        · intro h
          simp at h
        · intro _
          rfl

def jobC8 : Job := mkJob "qwert" "timer" .running true

def storeC8 : JobStore := singletonStore jobC8

/-- C8 witness: cancelling a cancelable RUNNING job in a concrete store
    succeeds and leaves the job CANCELLED. -/
theorem c8_witness :
    (JobRegistry.cancel_job storeC8 3 "qwert").1 = true ∧
    (JobRegistry.get_job (JobRegistry.cancel_job storeC8 3 "qwert").2 "qwert").map Job.status =
      some JobStatus.cancelled := by
  have h := c8_cancel_spec storeC8 3 "qwert"
  have h1 : (JobRegistry.cancel_job storeC8 3 "qwert").1 = true :=
    h.1.mpr ⟨jobC8, rfl, rfl, Or.inr rfl⟩
  exact ⟨h1, h.2.1 h1⟩

/- ===== C5: create_job id freshness ===== -/

def jobC5 : Job := mkJob "abc12" "timer" .pending false

def storeC5 : JobStore := singletonStore jobC5

/-- C5 counterexample: when the id generator repeats an id already present
    in the store, create_job uses it anyway — the produced job's id equals
    an existing job's id (freshness fails) and the plain dict write replaces
    the existing "timer" record with the new "fibonacci" one (overwrite). -/
theorem c5_counterexample :
    (JobRegistry.create_job storeC5 "abc12" 3 "fibonacci" [] none none false none
        false none none).1.job_id = "abc12" ∧
    (storeC5 "abc12").isSome = true ∧
    ((JobRegistry.create_job storeC5 "abc12" 3 "fibonacci" [] none none false none
        false none none).2 "abc12").map Job.tool_name = some "fibonacci" ∧
    (storeC5 "abc12").map Job.tool_name = some "timer" :=
  ⟨rfl, rfl, rfl, rfl⟩

/-- C5 (amended): create_job builds exactly one new PENDING record under the
    id the generator produced and writes it into the store, leaving every
    other id untouched; but no collision check is performed — the write
    lands on the generated id whether or not it is already occupied, so id
    uniqueness holds only when the 5-character random draw never repeats a
    live id (a probabilistic, not enforced, property). -/
theorem c5_create_inserts (s : JobStore) (genId : String) (now : Nat)
    (tool : String) (input : Dict) (owner cid : Option String) (cb : Bool)
    (ctx : Option Dict) (nc : Bool) (nt : Option String) (nm : Option Template) :
    (JobRegistry.create_job s genId now tool input owner cid cb ctx nc nt nm).1.job_id = genId ∧
    (JobRegistry.create_job s genId now tool input owner cid cb ctx nc nt nm).1.status =
      JobStatus.pending ∧
    (JobRegistry.create_job s genId now tool input owner cid cb ctx nc nt nm).2 genId =
      some (JobRegistry.create_job s genId now tool input owner cid cb ctx nc nt nm).1 ∧
    ∀ k, k ≠ genId →
      (JobRegistry.create_job s genId now tool input owner cid cb ctx nc nt nm).2 k = s k := by
  refine ⟨rfl, rfl, ?_, ?_⟩
  · unfold JobRegistry.create_job
    simp
  · intro k hk
    unfold JobRegistry.create_job
    simp [hk]

/-- C5 witness: the amended theorem applied to a fresh id in a concrete
    store: the new record is inserted and the old id's entry is untouched. -/
theorem c5_witness :
    (JobRegistry.create_job storeC5 "xy9z8" 4 "goose" [] none none true none
        false none none).2 "xy9z8" =
      some (JobRegistry.create_job storeC5 "xy9z8" 4 "goose" [] none none true none
        false none none).1 ∧
    (JobRegistry.create_job storeC5 "xy9z8" 4 "goose" [] none none true none
        false none none).2 "abc12" = storeC5 "abc12" :=
  ⟨(c5_create_inserts storeC5 "xy9z8" 4 "goose" [] none none true none false none none).2.2.1,
   (c5_create_inserts storeC5 "xy9z8" 4 "goose" [] none none true none false none none).2.2.2
     "abc12" (by decide)⟩

/- ===== C9: register overwrite semantics ===== -/

def schemaFirst : ToolSchema := { name := "t", description := "first", parameters := [] }

def schemaSecond : ToolSchema := { name := "t", description := "second", parameters := [] }

def settingsFirst : JobSettings :=
  { sync_threshold := some 3
    job_timeout := none
    notify_title := none
    notify_message := none
    cancelable := true }

/-- Registering "t" twice: the first registration carries settings, the
    second carries none (Python `settings=None`). -/
def regTwice : ToolRegistryState Nat :=
  ToolRegistry.register
    (ToolRegistry.register (ToolRegistryState.empty Nat) schemaFirst 1 (some settingsFirst))
    schemaSecond 2 none

/-- C9 counterexample: after the second registration of "t" (which passes no
    settings), a lookup still observes the FIRST registration's job
    settings — `register` writes `_job_settings` only under `if settings:`,
    so the registry does not hold exactly the second registration's
    settings (which were absent). The schema, by contrast, is the second's. -/
theorem c9_counterexample :
    ToolRegistry.get_schema regTwice "t" = some schemaSecond ∧
    ToolRegistry.get_job_settings regTwice "t" = some settingsFirst ∧
    some settingsFirst ≠ (none : Option JobSettings) :=
  ⟨rfl, rfl, by simp⟩

/-- C9 (amended): registering a name twice leaves exactly the second
    registration's schema and implementation; the job settings are the
    second registration's when it passes settings, and are left at the
    earlier registry state's entry when it passes none. Registration itself
    never fails (schema well-formedness is checked at schema construction,
    outside `register`). -/
theorem c9_register_last_wins {α : Type} (r : ToolRegistryState α)
    (s1 s2 : ToolSchema) (i1 i2 : α) (st1 st2 : Option JobSettings)
    (_hname : s1.name = s2.name) :
    ToolRegistry.get_schema
      (ToolRegistry.register (ToolRegistry.register r s1 i1 st1) s2 i2 st2) s2.name = some s2 ∧
    ToolRegistry.get_implementation
      (ToolRegistry.register (ToolRegistry.register r s1 i1 st1) s2 i2 st2) s2.name = some i2 ∧
    (∀ st, st2 = some st →
      ToolRegistry.get_job_settings
        (ToolRegistry.register (ToolRegistry.register r s1 i1 st1) s2 i2 st2) s2.name = some st) ∧
    (st2 = none →
      ToolRegistry.get_job_settings
        (ToolRegistry.register (ToolRegistry.register r s1 i1 st1) s2 i2 st2) s2.name =
      ToolRegistry.get_job_settings (ToolRegistry.register r s1 i1 st1) s2.name) := by
  refine ⟨?_, ?_, ?_, ?_⟩
  · simp [ToolRegistry.get_schema, ToolRegistry.register]
  · simp [ToolRegistry.get_implementation, ToolRegistry.register]
  · intro st hst
    subst hst
    simp [ToolRegistry.get_job_settings, ToolRegistry.register]
  · intro hst
    subst hst
    simp [ToolRegistry.get_job_settings, ToolRegistry.register]

def settingsSecond : JobSettings :=
  { sync_threshold := some 0
    job_timeout := none
    notify_title := none
    notify_message := none
    cancelable := false }

/-- C9 witness: the amended theorem applied to two concrete registrations
    that both carry settings — every lookup observes the second. -/
theorem c9_witness :
    ToolRegistry.get_schema
      (ToolRegistry.register
        (ToolRegistry.register (ToolRegistryState.empty Nat) schemaFirst 1 (some settingsFirst))
        schemaSecond 2 (some settingsSecond)) "t" = some schemaSecond ∧
    ToolRegistry.get_job_settings
      (ToolRegistry.register
        (ToolRegistry.register (ToolRegistryState.empty Nat) schemaFirst 1 (some settingsFirst))
        schemaSecond 2 (some settingsSecond)) "t" = some settingsSecond := by
  have h := c9_register_last_wins (ToolRegistryState.empty Nat)
    schemaFirst schemaSecond 1 2 (some settingsFirst) (some settingsSecond) rfl
  exact ⟨h.1, h.2.2.1 settingsSecond rfl⟩

/- ===== C2: cancelled jobs and late-arriving results ===== -/

def jobCancelledC2 : Job := mkJob "cancl" "timer" .cancelled true

def storeC2 : JobStore := singletonStore jobCancelledC2

/-- C2: in the unconditional-block path (`sync_threshold == -1`), the write
    that lands after the awaited callable returns carries no check of the
    job's current status: a job cancelled while the callable was running is
    overwritten from CANCELLED to SUCCESS (the background-task path, by
    contrast, checks for CANCELLED before writing). This evaluates the code
    at the failing input. -/
theorem c2_block_overwrites_cancelled :
    (storeC2 "cancl").map Job.status = some JobStatus.cancelled ∧
    ((ToolRegistry.execute_block_finish storeC2 9 "cancl" "timer" []
        (.ok (.vdict []))).2 "cancl").map Job.status = some JobStatus.success ∧
    (∀ s : JobStore, ∀ now : Nat, ∀ id : String, ∀ kwargs : Dict, ∀ outcome : CallOutcome,
      ∀ j : Job, s id = some j → j.status = .cancelled →
        ToolRegistry.run_job_in_background_finish s now id kwargs outcome = s) := by
  refine ⟨rfl, rfl, ?_⟩
  intro s now id kwargs outcome j hj hc
  unfold ToolRegistry.run_job_in_background_finish
  cases outcome with
  | ok r =>
      unfold JobRegistry.get_job
      rw [hj]
      simp [hc]
  | error e =>
      unfold JobRegistry.get_job
      rw [hj]
      simp [hc]

/-- C2 witness: the preservation conjunct applied to the concrete cancelled
    store with a late error outcome — the store is untouched. -/
theorem c2_witness :
    ToolRegistry.run_job_in_background_finish storeC2 9 "cancl" [] (.error "late") = storeC2 :=
  (c2_block_overwrites_cancelled.2.2) storeC2 9 "cancl" [] (.error "late") jobCancelledC2 rfl rfl

/- ===== C6: callable exceptions ===== -/

def jobRunningC6 : Job := mkJob "runjb" "timer" .running true

def storeC6 : JobStore := singletonStore jobRunningC6

/-- C6 counterexample: in the unconditional-block path a raising callable is
    recorded with error "Job failed: " prefixed to str(e) — not the
    exception's textual message itself — and the exception is re-raised by
    `job_context`, escaping `execute_tool` as a framework-level (HTTP 400)
    error even though the job had started running. -/
theorem c6_counterexample :
    (ToolRegistry.execute_block_finish storeC6 4 "runjb" "timer" [] (.error "boom")).1 =
      .error "boom" ∧
    ((ToolRegistry.execute_block_finish storeC6 4 "runjb" "timer" []
        (.error "boom")).2 "runjb").bind Job.error = some "Job failed: boom" ∧
    some "Job failed: boom" ≠ some "boom" :=
  ⟨rfl, rfl, by decide⟩

/-- C6 (amended): a raising callable is always caught at the engine
    boundary. In the background path (used by the never-block and
    bounded-wait strategies) the job is marked FAILED with exactly str(e) as
    its error — unless already CANCELLED — and nothing propagates. In the
    unconditional-block path the job is marked FAILED with error
    "Job failed: " ++ str(e) and the exception is re-raised, surfacing as a
    synchronous framework error to the caller. -/
theorem c6_error_handling (s : JobStore) (now : Nat) (id tool : String)
    (body kwargs : Dict) (e : String) (j : Job)
    (hj : s id = some j) (hnc : ¬ j.status = .cancelled) :
    ((ToolRegistry.run_job_in_background_finish s now id kwargs (.error e)) id).map Job.status =
      some JobStatus.failed ∧
    ((ToolRegistry.run_job_in_background_finish s now id kwargs (.error e)) id).bind Job.error =
      some e ∧
    (ToolRegistry.execute_block_finish s now id tool body (.error e)).1 = .error e ∧
    ((ToolRegistry.execute_block_finish s now id tool body (.error e)).2 id).map Job.status =
      some JobStatus.failed ∧
    ((ToolRegistry.execute_block_finish s now id tool body (.error e)).2 id).bind Job.error =
      some ("Job failed: " ++ e) := by
  have hbg : ToolRegistry.run_job_in_background_finish s now id kwargs (.error e) =
      JobRegistry.update_job s now id .failed none (some e) := by
    unfold ToolRegistry.run_job_in_background_finish JobRegistry.get_job
    rw [hj]
    simp [hnc]
  have hupd : ∀ res err, (JobRegistry.update_job s now id JobStatus.failed res err) id =
      some (j.update now .failed res err) := by
    intro res err
    unfold JobRegistry.update_job
    rw [hj]
    simp
  refine ⟨?_, ?_, rfl, ?_, ?_⟩
  · rw [hbg, hupd]
    rfl
  · rw [hbg, hupd]
    rfl
  · show ((JobRegistry.update_job s now id .failed none
        (some ("Job failed: " ++ e))) id).map Job.status = some JobStatus.failed
    rw [hupd]
    rfl
  · show ((JobRegistry.update_job s now id .failed none
        (some ("Job failed: " ++ e))) id).bind Job.error = some ("Job failed: " ++ e)
    rw [hupd]
    rfl

/-- C6 witness: the amended theorem applied to the concrete running job. -/
theorem c6_witness :
    ((ToolRegistry.run_job_in_background_finish storeC6 5 "runjb" [] (.error "oops"))
        "runjb").bind Job.error = some "oops" :=
  (c6_error_handling storeC6 5 "runjb" "timer" [] [] "oops" jobRunningC6 rfl (by decide)).2.1

/- ===== C4: sync_threshold 0 / absent ===== -/

def settingsNoThreshold : JobSettings :=
  { sync_threshold := none
    job_timeout := none
    notify_title := none
    notify_message := none
    cancelable := false }

/-- C4 counterexample: with settings whose sync_threshold is absent (None) —
    or with no settings at all — `execute_tool` takes the synchronous
    non-job branch: the callable is awaited inline and the response is a
    "success" envelope with `is_job` false and no job id, not a PENDING
    envelope. -/
theorem c4_counterexample :
    dispatch (some settingsNoThreshold) = ExecPath.plainSync ∧
    dispatch none = ExecPath.plainSync ∧
    ToolRegistry.execute_plain_sync "greet" [] (.ok (.vdict [])) =
      .ok (standardize_result "greet" "success" (.vdict []) [] false none none none none none) ∧
    dictGet (standardize_result "greet" "success" (.vdict []) [] false none none none none none)
      "status" = some (.vstr "success") ∧
    dictGet (standardize_result "greet" "success" (.vdict []) [] false none none none none none)
      "job_id" = none ∧
    dictGet (standardize_result "greet" "success" (.vdict []) [] false none none none none none)
      "is_job" = some (.vbool false) :=
  ⟨rfl, rfl, rfl, rfl, rfl, rfl⟩

/-- C4 (amended): for a tool whose settings carry `sync_threshold = 0`, the
    dispatcher takes the schedule-and-return branch: the response is the
    standardized PENDING envelope carrying the created job's id, the
    callable having been handed to the background task queue; and whenever
    the background task's completion half runs against a store in which the
    job exists, it leaves that job in a terminal state (SUCCESS on a result,
    FAILED on a raise, or the already-terminal CANCELLED), so the job does
    not stay PENDING once the background task has run. -/
theorem c4_zero_threshold (st : JobSettings) (h0 : st.sync_threshold = some 0)
    (tool id : String) (body : Dict) (hid : ¬ id = "")
    (s : JobStore) (now : Nat) (kwargs : Dict) (outcome : CallOutcome) (j : Job)
    (hj : s id = some j) :
    dispatch (some st) = ExecPath.schedulePending ∧
    dictGet (ToolRegistry.execute_pending_response tool id body) "status" =
      some (.vstr "pending") ∧
    dictGet (ToolRegistry.execute_pending_response tool id body) "job_id" =
      some (.vstr id) ∧
    (∃ j', (ToolRegistry.run_job_in_background_finish s now id kwargs outcome) id = some j' ∧
      j'.status.isTerminal = true) := by
  refine ⟨?_, ?_, ?_, ?_⟩
  · simp [dispatch, h0]
  · rfl
  · unfold ToolRegistry.execute_pending_response standardize_result optStrField
    simp [dictGet, hid]
  · unfold ToolRegistry.run_job_in_background_finish JobRegistry.get_job
    cases outcome with
    | ok r =>
        rw [hj]
        by_cases hc : j.status = .cancelled
        · refine ⟨j, ?_, ?_⟩
          · simp [hc, hj]
          · rw [hc]
            rfl
        · cases hmsg : j.get_status_message with
          | ok msg =>
              simp only [hc, if_neg, ite_false, hmsg]
              refine ⟨j.update now .success (some (standardize_result j.tool_name
                  JobStatus.success.value r kwargs true (some id) none
                  (some (isoformat j.created_at)) (some (isoformat j.updated_at))
                  (some msg))) none, ?_, rfl⟩
              unfold JobRegistry.update_job
              rw [hj]
              simp
          | error ex =>
              simp only [hc, if_neg, ite_false, hmsg]
              refine ⟨j.update now .failed none (some ex.pyStr), ?_, rfl⟩
              unfold JobRegistry.update_job
              rw [hj]
              simp
    | error e =>
        rw [hj]
        by_cases hc : j.status = .cancelled
        · refine ⟨j, ?_, ?_⟩
          · simp [hc, hj]
          · rw [hc]
            rfl
        · simp only [hc, if_neg, ite_false]
          refine ⟨j.update now .failed none (some e), ?_, rfl⟩
          unfold JobRegistry.update_job
          rw [hj]
          simp

def jobPendingC4 : Job := mkJob "pndng" "timer" .pending false

def storeC4 : JobStore := singletonStore jobPendingC4

/-- C4 witness: the amended theorem at concrete inputs — settings with a
    zero threshold dispatch to the pending branch, the envelope carries the
    id, and a successful background completion leaves the job terminal. -/
theorem c4_witness :
    dispatch (some settingsSecond) = ExecPath.schedulePending ∧
    dictGet (ToolRegistry.execute_pending_response "timer" "pndng" []) "job_id" =
      some (.vstr "pndng") ∧
    (∃ j', (ToolRegistry.run_job_in_background_finish storeC4 6 "pndng" []
        (.ok (.vdict []))) "pndng" = some j' ∧ j'.status.isTerminal = true) := by
  have h := c4_zero_threshold settingsSecond rfl "timer" "pndng" [] (by decide)
    storeC4 6 [] (.ok (.vdict [])) jobPendingC4 rfl
  exact ⟨h.1, h.2.2.1, h.2.2.2⟩

/- ===== C7: status messages and tolerant interpolation ===== -/

def jobFibC7 : Job := { mkJob "fibjb" "fibonacci" .success false with result := some [] }

/-- C7 counterexample: for a SUCCESS "fibonacci" job whose result mapping
    lacks the "result" key, get_status_message subscripts the result dict
    directly and raises KeyError — it does not return a string. -/
theorem c7_counterexample :
    Job.get_status_message jobFibC7 = .error (.keyError "result") ∧
    (Job.get_status_message jobFibC7).isOk = false :=
  ⟨rfl, rfl⟩

/-- If Python str.format succeeds on a template, every placeholder resolved,
    and its output coincides with the per-key tolerant substitution. -/
theorem pyFormat_ok_eq_fallback (ctx : String → Option Value) :
    ∀ t : Template, ∀ out : String, pyFormat ctx t = .ok out → regexFallback ctx t = out := by
  intro t
  induction t with
  | nil =>
      intro out h
      cases h
      rfl
  | cons seg rest ih =>
      intro out h
      cases seg with
      | lit s =>
          unfold pyFormat at h
          cases hr : pyFormat ctx rest with
          | ok o =>
              rw [hr] at h
              cases h
              unfold regexFallback
              rw [ih o hr]
          | error err =>
              rw [hr] at h
              cases h
      | hole k =>
          unfold pyFormat at h
          by_cases hk : k = ""
          · rw [if_pos hk] at h
            cases h
          · rw [if_neg hk] at h
            cases hc : ctx k with
            | none =>
                rw [hc] at h
                cases h
            | some v =>
                rw [hc] at h
                cases hr : pyFormat ctx rest with
                | ok o =>
                    rw [hr] at h
                    cases h
                    unfold regexFallback
                    rw [hc, ih o hr]
                | error err =>
                    rw [hr] at h
                    cases h

/-- With every placeholder key nonempty, str.format can only succeed or
    raise KeyError, never the other (positional/IndexError) failure. -/
theorem pyFormat_no_other (ctx : String → Option Value) :
    ∀ t : Template, (∀ k, TSeg.hole k ∈ t → ¬ k = "") →
      ¬ pyFormat ctx t = .error .otherErr := by
  intro t
  induction t with
  | nil =>
      intro _ h
      cases h
  | cons seg rest ih =>
      intro hnz h
      cases seg with
      | lit s =>
          unfold pyFormat at h
          cases hr : pyFormat ctx rest with
          | ok o =>
              rw [hr] at h
              cases h
          | error err =>
              rw [hr] at h
              cases h
              exact ih (fun k hk => hnz k (List.mem_cons_of_mem _ hk)) hr
      | hole k =>
          unfold pyFormat at h
          have hk : ¬ k = "" := hnz k (List.mem_cons_self _ _)
          rw [if_neg hk] at h
          cases hc : ctx k with
          | none =>
              rw [hc] at h
              cases h
          | some v =>
              rw [hc] at h
              cases hr : pyFormat ctx rest with
              | ok o =>
                  rw [hr] at h
                  cases h
              | error err =>
                  rw [hr] at h
                  cases h
                  exact ih (fun k' hk' => hnz k' (List.mem_cons_of_mem _ hk')) hr

/-- A template without placeholders renders to its raw text under the
    tolerant substitution as well. -/
theorem rawText_eq_fallback_of_no_hole (ctx : String → Option Value) :
    ∀ t : Template, hasHole t = false → rawText t = regexFallback ctx t := by
  intro t
  induction t with
  | nil =>
      intro _
      rfl
  | cons seg rest ih =>
      intro hnh
      cases seg with
      | lit s =>
          unfold hasHole at hnh
          unfold rawText regexFallback
          rw [ih hnh]
      | hole k =>
          unfold hasHole at hnh
          cases hnh

/-- C7 (amended): get_status_message returns a string without raising for
    every job whose tool name is neither "fibonacci" nor "goose" (those two
    subscript the result mapping directly on SUCCESS and may raise); and
    template interpolation over the merged input+result context never
    raises, its output being exactly the per-key tolerant substitution that
    leaves the literal \x7bkey\x7d placeholder for every unresolved key (for
    templates whose placeholder keys are nonempty). -/
theorem c7_tolerant_messages (j : Job) (t : Template)
    (hfib : ¬ j.tool_name = "fibonacci") (hgoose : ¬ j.tool_name = "goose")
    (hnz : ∀ k, TSeg.hole k ∈ t → ¬ k = "") :
    (j.get_status_message).isOk = true ∧
    j.format_with_context t = regexFallback j.ctxGet t := by
  constructor
  · unfold Job.get_status_message
    cases j.status <;> simp [hfib, hgoose, Except.isOk, Except.toBool]
  · unfold Job.format_with_context
    by_cases hh : hasHole t = false
    · rw [if_pos hh]
      exact rawText_eq_fallback_of_no_hole j.ctxGet t hh
    · rw [if_neg hh]
      cases hpf : pyFormat j.ctxGet t with
      | ok out =>
          exact (pyFormat_ok_eq_fallback j.ctxGet t out hpf).symm
      | error err =>
          cases err with
          | keyErr k => rfl
          | otherErr => exact absurd hpf (pyFormat_no_other j.ctxGet t hnz)

def jobMsgC7 : Job := { mkJob "tmrjb" "timer" .success false with result := some [("x", .vint 5)] }

def templC7 : Template := [.lit "got ", .hole "x", .lit " and ", .hole "y"]

/-- C7 witness: a concrete SUCCESS timer job and a template with one
    resolvable and one unresolvable key — the message call succeeds and the
    interpolation equals the tolerant substitution (which keeps "\x7by\x7d"). -/
theorem c7_witness :
    (Job.get_status_message jobMsgC7).isOk = true ∧
    Job.format_with_context jobMsgC7 templC7 = regexFallback jobMsgC7.ctxGet templC7 :=
  c7_tolerant_messages jobMsgC7 templC7 (by decide) (by decide)
    (by
      intro k hk
      simp only [templC7, List.mem_cons, List.not_mem_nil, or_false] at hk
      rcases hk with h1 | h2 | h3 | h4
      · cases h1
      · cases h2
        decide
      · cases h3
      · cases h4
        decide)

/- ===== C3: positive sync_threshold (bounded wait) ===== -/

/-- One unfolding of the polling loop. -/
theorem poll_wait_unfold (trace : Nat → JobStore) (id tool : String) (body : Dict)
    (created0 now threshold n : Nat) :
    ToolRegistry.poll_wait trace id tool body created0 now threshold n =
      match JobRegistry.get_job (trace n) id with
      | none =>
          .httpError "\x27NoneType\x27 object has no attribute \x27status\x27"
            (JobRegistry.update_job (trace n) now id .failed none
              (some "\x27NoneType\x27 object has no attribute \x27status\x27"))
      | some cur =>
          if ToolRegistry.isFinishedStatus cur.status then
            match cur.get_status_message with
            | .ok msg => .envelope (ToolRegistry.boundedTerminalEnvelope tool id body cur msg)
            | .error ex =>
                .httpError ex.pyStr
                  (JobRegistry.update_job (trace n) now id .failed none (some ex.pyStr))
          else if 10 * threshold ≤ n then
            .envelope (ToolRegistry.boundedPendingEnvelope tool id body created0)
          else ToolRegistry.poll_wait trace id tool body created0 now threshold (n + 1) := by
  rw [ToolRegistry.poll_wait]

/-- If the job stays unfinished at every poll from n up to (but excluding)
    some N within the threshold window and is finished at poll N, the loop
    started at n returns the terminal envelope observed at N when the
    status-message call returns, and the FAILED-rewrite-plus-HTTP-400
    outcome when it raises. -/
theorem poll_wait_terminal (trace : Nat → JobStore) (id tool : String) (body : Dict)
    (created0 now threshold : Nat) :
    ∀ d n N, N = n + d → N ≤ 10 * threshold →
    (∀ m, n ≤ m → m < N → ∃ jm, JobRegistry.get_job (trace m) id = some jm ∧
      ToolRegistry.isFinishedStatus jm.status = false) →
    ∀ jN, JobRegistry.get_job (trace N) id = some jN →
    ToolRegistry.isFinishedStatus jN.status = true →
    ToolRegistry.poll_wait trace id tool body created0 now threshold n =
      (match jN.get_status_message with
       | .ok msg => .envelope (ToolRegistry.boundedTerminalEnvelope tool id body jN msg)
       | .error ex =>
           .httpError ex.pyStr
             (JobRegistry.update_job (trace N) now id .failed none (some ex.pyStr))) := by
  intro d
  induction d with
  | zero =>
      intro n N hN _hle _hmid jN hjN hfin
      have hn : N = n := by omega
      subst hn
      cases hmsg : jN.get_status_message with
      | ok msg =>
          rw [poll_wait_unfold, hjN]
          simp [hfin, hmsg]
      | error ex =>
          rw [poll_wait_unfold, hjN]
          simp [hfin, hmsg]
  | succ d ih =>
      intro n N hN hle hmid jN hjN hfin
      obtain ⟨jn, hjn, hunf⟩ := hmid n le_rfl (by omega)
      rw [poll_wait_unfold, hjn]
      simp only [hunf, Bool.false_eq_true, if_false]
      rw [if_neg (by omega : ¬ 10 * threshold ≤ n)]
      exact ih (n + 1) N (by omega) hle
        (fun m hm1 hm2 => hmid m (by omega) hm2) jN hjN hfin

/-- If the job stays unfinished at every poll through the threshold window,
    the loop returns the PENDING envelope once the window elapses. -/
theorem poll_wait_pending (trace : Nat → JobStore) (id tool : String) (body : Dict)
    (created0 now threshold : Nat) :
    ∀ d n, n + d = 10 * threshold →
    (∀ m, n ≤ m → m ≤ 10 * threshold → ∃ jm, JobRegistry.get_job (trace m) id = some jm ∧
      ToolRegistry.isFinishedStatus jm.status = false) →
    ToolRegistry.poll_wait trace id tool body created0 now threshold n =
      .envelope (ToolRegistry.boundedPendingEnvelope tool id body created0) := by
  intro d
  induction d with
  | zero =>
      intro n hn hmid
      obtain ⟨jn, hjn, hunf⟩ := hmid n le_rfl (by omega)
      rw [poll_wait_unfold, hjn]
      simp only [hunf, Bool.false_eq_true, if_false]
      rw [if_pos (by omega : 10 * threshold ≤ n)]
  | succ d ih =>
      intro n hn hmid
      obtain ⟨jn, hjn, hunf⟩ := hmid n le_rfl (by omega)
      rw [poll_wait_unfold, hjn]
      simp only [hunf, Bool.false_eq_true, if_false]
      rw [if_neg (by omega : ¬ 10 * threshold ≤ n)]
      exact ih (n + 1) (by omega) (fun m hm1 hm2 => hmid m (by omega) hm2)

def jobGooseC3 : Job :=
  { mkJob "goos1" "goose" .success true with
      result := some [("tool_name", .vstr "goose"), ("status", .vstr "success")] }

/-- A trace in which the bounded-wait loop observes the goose job already
    SUCCESS at its first poll, its result being the background task's
    standardized envelope (which carries no top-level "target" key). -/
def traceGooseC3 : Nat → JobStore := fun _ => singletonStore jobGooseC3

/-- C3 counterexample: at a poll observing a SUCCESS "goose" job within the
    window, building the terminal envelope's status message subscripts the
    stored result mapping at the absent "target" key and raises
    KeyError("target"); the branch's except clause rewrites the job FAILED
    and re-raises as HTTP 400 — the response is not the terminal result. -/
theorem c3_counterexample :
    ToolRegistry.poll_wait traceGooseC3 "goos1" "goose" [] 0 9 1 0 =
      ToolRegistry.PollResult.httpError "\x27target\x27"
        (JobRegistry.update_job (singletonStore jobGooseC3) 9 "goos1" .failed none
          (some "\x27target\x27")) ∧
    ∀ d : Dict, ¬ ToolRegistry.poll_wait traceGooseC3 "goos1" "goose" [] 0 9 1 0 =
      ToolRegistry.PollResult.envelope d := by
  have h : ToolRegistry.poll_wait traceGooseC3 "goos1" "goose" [] 0 9 1 0 =
      ToolRegistry.PollResult.httpError "\x27target\x27"
        (JobRegistry.update_job (singletonStore jobGooseC3) 9 "goos1" .failed none
          (some "\x27target\x27")) := by
    rw [poll_wait_unfold]
    rfl
  refine ⟨h, ?_⟩
  intro d hd
  rw [h] at hd
  exact ToolRegistry.PollResult.noConfusion hd

/-- C3 (amended): for a tool whose settings carry a positive sync_threshold
    D, the dispatcher takes the bounded-wait branch; on entry the job is set
    RUNNING at once (the callable having been launched as a concurrent
    task); the loop then polls the store at its fixed 0.1s interval.  If the
    job is observed SUCCESS/FAILED/CANCELLED at some poll within the
    D-second window, then: when the terminal job's status-message rendering
    returns (every case except a SUCCESS job of the "fibonacci"/"goose"
    tools whose result mapping lacks the subscripted key), the response is
    that terminal envelope (status, result mapping, error) immediately; when
    it raises, the job is instead rewritten FAILED with str(e) and the call
    surfaces as an HTTP 400 carrying str(e).  If the job stays unfinished
    through the whole window, the response is the standardized PENDING
    envelope carrying the job id.  Apart from the exception path's FAILED
    write, the loop only reads the store — the background task keeps
    running. -/
theorem c3_bounded_wait (s : JobStore) (now : Nat) (id tool : String) (body : Dict)
    (created0 now2 : Nat) (D : Nat) (hD : 1 ≤ D) (st : JobSettings)
    (hst : st.sync_threshold = some (D : Int)) (trace : Nat → JobStore) :
    dispatch (some st) = ExecPath.boundedWait (D : Int) ∧
    (∀ j, s id = some j →
      (JobRegistry.get_job (JobRegistry.update_job s now id .running none none) id).map
        Job.status = some JobStatus.running) ∧
    (∀ N, N ≤ 10 * D →
      (∀ m, m < N → ∃ jm, JobRegistry.get_job (trace m) id = some jm ∧
        ToolRegistry.isFinishedStatus jm.status = false) →
      ∀ jN, JobRegistry.get_job (trace N) id = some jN →
        ToolRegistry.isFinishedStatus jN.status = true →
        (∀ msg, jN.get_status_message = .ok msg →
          ToolRegistry.poll_wait trace id tool body created0 now2 D 0 =
            .envelope (ToolRegistry.boundedTerminalEnvelope tool id body jN msg)) ∧
        (∀ ex, jN.get_status_message = .error ex →
          ToolRegistry.poll_wait trace id tool body created0 now2 D 0 =
            .httpError ex.pyStr
              (JobRegistry.update_job (trace N) now2 id .failed none (some ex.pyStr)))) ∧
    ((∀ m, m ≤ 10 * D → ∃ jm, JobRegistry.get_job (trace m) id = some jm ∧
        ToolRegistry.isFinishedStatus jm.status = false) →
      ToolRegistry.poll_wait trace id tool body created0 now2 D 0 =
        .envelope (ToolRegistry.boundedPendingEnvelope tool id body created0)) := by
  refine ⟨?_, ?_, ?_, ?_⟩
  · have h1 : ¬ ((D : Int) = -1) := by omega
    have h2 : ¬ ((D : Int) = 0) := by omega
    simp [dispatch, hst, h1, h2]
  · intro j hj
    unfold JobRegistry.update_job JobRegistry.get_job
    rw [hj]
    simp [Job.update]
  · intro N hN hmid jN hjN hfin
    have hterm := poll_wait_terminal trace id tool body created0 now2 D N 0 N (by omega) hN
      (fun m _ hm2 => hmid m hm2) jN hjN hfin
    constructor
    · intro msg hmsg
      rw [hterm, hmsg]
    · intro ex hmsg
      rw [hterm, hmsg]
  · intro hall
    exact poll_wait_pending trace id tool body created0 now2 D (10 * D) 0 (by omega)
      (fun m _ hm2 => hall m hm2)

def jobRunC3 : Job := mkJob "bound" "timer" .running true

def jobDoneC3 : Job :=
  { jobRunC3 with status := .success, result := some [("duration", .vint 2)], updated_at := 2 }

/-- A store trace under which the background task completes the job between
    the second and third poll (at 0.2s). -/
def traceC3 : Nat → JobStore :=
  fun n => if n < 2 then singletonStore jobRunC3 else singletonStore jobDoneC3

def settingsC3 : JobSettings :=
  { sync_threshold := some 1
    job_timeout := none
    notify_title := none
    notify_message := none
    cancelable := true }

/-- C3 witness: with threshold 1s and a callable finishing by the poll at
    0.2s, the status-message call on the SUCCESS timer job returns, and the
    loop returns the terminal SUCCESS envelope observed there. -/
theorem c3_witness :
    ToolRegistry.poll_wait traceC3 "bound" "timer" [] 0 3 1 0 =
      ToolRegistry.PollResult.envelope
        (ToolRegistry.boundedTerminalEnvelope "timer" "bound" [] jobDoneC3
          "timer job completed successfully") := by
  have h := c3_bounded_wait (singletonStore jobRunC3) 0 "bound" "timer" [] 0 3 1 (by decide)
    settingsC3 rfl traceC3
  exact (h.2.2.1 2 (by omega)
    (fun m hm => ⟨jobRunC3, by
        unfold traceC3
        rw [if_pos hm]
        rfl, rfl⟩)
    jobDoneC3 (by
      unfold traceC3
      rw [if_neg (by omega)]
      rfl) rfl).1 "timer job completed successfully" rfl
